import Mathlib

/-!
# usb_dev_driver: a shallow embedding of `usb.c`

The driver keeps one `struct usb_pd` per attached device.  The embedding below
represents that structure, the kernel resources the driver manipulates
(reference count, write-limiting semaphore, I/O mutex, URBs, coherent buffers)
and the entry points `pd_open`, `pd_release`, `pd_read`, `pd_write`,
`pd_write_bulk_callback`, `pd_probe`, `pd_disconnect` and `pd_delete` as
functions on an explicit state.  Every entry point runs as one atomic step;
outcomes of kernel services that the driver cannot control (allocation
results, transfer results, pending signals) are supplied as an explicit
environment argument.
-/

namespace UsbPd

/-! ## Kernel constants -/

/-- Errno value `ENOMEM`. -/
def ENOMEM : Int := 12
/-- Errno value `EFAULT`. -/
def EFAULT : Int := 14
/-- Errno value `ENODEV`. -/
def ENODEV : Int := 19
/-- Errno value `ERESTARTSYS`. -/
def ERESTARTSYS : Int := 512

/-- Direction bit of `bEndpointAddress`. -/
def USB_DIR_IN : Nat := 0x80
/-- Transfer-type mask of `bmAttributes`. -/
def USB_ENDPOINT_XFERTYPE_MASK : Nat := 0x03
/-- Transfer type "bulk". -/
def USB_ENDPOINT_XFER_BULK : Nat := 2

/-- Source line 26: `#define WRITES_IN_FLIGHT 8`. -/
def WRITES_IN_FLIGHT : Nat := 8

/-- Source line 25: `#define MAX_TRANSFER (PAGE_SIZE - 512)`, computed in
`unsigned long` (64 bit) arithmetic.  `PAGE_SIZE` comes from the kernel
headers and is a parameter here. -/
def MAX_TRANSFER (PAGE_SIZE : Nat) : Nat := (PAGE_SIZE + 2 ^ 64 - 512) % 2 ^ 64

/-- Conversion of a `size_t` to `ssize_t` (two's complement, 64 bit). -/
def to_ssize_t (n : Nat) : Int :=
  if n % 2 ^ 64 < 2 ^ 63 then ((n % 2 ^ 64 : Nat) : Int) else ((n % 2 ^ 64 : Nat) : Int) - 2 ^ 64

/-- Conversion of an integer to C `int` (two's complement, 32 bit). -/
def to_int (n : Int) : Int :=
  if n % 2 ^ 32 < 2 ^ 31 then n % 2 ^ 32 else n % 2 ^ 32 - 2 ^ 32

/-- Conversion of an integer to `unsigned long` (64 bit). -/
def to_ulong (n : Int) : Nat := (n % 2 ^ 64).toNat

/-- Conversion of an integer to `u32`. -/
def to_u32 (n : Int) : Nat := (n % 2 ^ 32).toNat

/-! ## Data model -/

/-- The fields of `struct usb_endpoint_descriptor` read by `pd_probe`.
`bEndpointAddress` and `bmAttributes` are `__u8`, `wMaxPacketSize` is `__le16`;
the accessors below reduce the stored numbers to those widths. -/
structure usb_endpoint_descriptor where
  bEndpointAddress : Nat
  bmAttributes : Nat
  wMaxPacketSize : Nat
  deriving DecidableEq, Repr

/-- The `__u8` value of `bEndpointAddress`. -/
def usb_endpoint_descriptor.addr (e : usb_endpoint_descriptor) : Nat :=
  e.bEndpointAddress % 256

/-- The `__u8` value of `bmAttributes`. -/
def usb_endpoint_descriptor.attrs (e : usb_endpoint_descriptor) : Nat :=
  e.bmAttributes % 256

/-- The value `le16_to_cpu(endpoint->wMaxPacketSize)`. -/
def usb_endpoint_descriptor.maxp (e : usb_endpoint_descriptor) : Nat :=
  e.wMaxPacketSize % 65536

/-- The fields of a write URB filled by `usb_fill_bulk_urb` in `pd_write`;
`transfer_buffer_length` is a `u32`. -/
structure urb where
  endpoint : Nat
  transfer_buffer_length : Nat
  deriving DecidableEq, Repr

/-- Source lines 29-45: `struct usb_pd`.  Pointers are represented by a flag
telling whether they are non-NULL; `limit_sem` is the semaphore count, `kref`
the reference count and `io_mutex` tells whether the mutex is held. -/
structure usb_pd where
  udev : Bool
  interface : Bool
  limit_sem : Nat
  bulk_in_urb : Bool
  bulk_in_buffer : Bool
  bulk_in_size : Nat
  bulk_in_endpointAddr : Nat
  bulk_out_endpointAddr : Nat
  kref : Int
  io_mutex : Bool
  deriving DecidableEq, Repr

/-- The all-zero structure returned by `kzalloc`. -/
def usb_pd.zero : usb_pd :=
  { udev := false, interface := false, limit_sem := 0, bulk_in_urb := false,
    bulk_in_buffer := false, bulk_in_size := 0, bulk_in_endpointAddr := 0,
    bulk_out_endpointAddr := 0, kref := 0, io_mutex := false }

/-- Calls into kernel services made by the driver, in program order. -/
inductive Event where
  | down
  | up
  | mutex_lock
  | mutex_unlock
  | kref_get
  | kref_put
  | pd_delete
  | usb_autopm_get_interface
  | usb_autopm_put_interface
  | usb_alloc_urb
  | usb_free_urb
  | usb_alloc_coherent (size : Nat)
  | usb_free_coherent (size : Nat)
  | copy_from_user (n : Nat)
  | copy_to_user (n : Nat)
  | usb_bulk_msg (endpoint : Nat) (len : Int)
  | usb_submit_urb (u : urb)
  | usb_register_dev
  | usb_deregister_dev
  deriving DecidableEq, Repr

/-- Tells whether an event is a call into the transport: a synchronous
transfer or an asynchronous submission. -/
def Event.isTransport : Event → Bool
  | .usb_bulk_msg _ _ => true
  | .usb_submit_urb _ => true
  | _ => false

/-- The driver state for one interface together with the kernel objects it
owns.
* `dev`: the `struct usb_pd` (its last contents once it has been freed);
* `deleted`: `pd_delete` has run on `dev`;
* `intfdata`: `usb_get_intfdata(interface)` returns `dev`;
* `registered`: the minor is registered, `usb_find_interface` finds the interface;
* `probed`: `pd_probe` has returned 0 for this interface;
* `bindings`: number of open files whose `private_data` is `dev`;
* `in_flight`: submitted write URBs whose completion callback has not run;
* `coherent`: number of live buffers obtained from `usb_alloc_coherent`;
* `urbs`: number of URB references held by the driver;
* `log`: the kernel services called so far. -/
structure World where
  dev : usb_pd
  deleted : Bool
  intfdata : Bool
  registered : Bool
  probed : Bool
  bindings : Nat
  in_flight : List urb
  coherent : Nat
  urbs : Nat
  log : List Event
  deriving DecidableEq, Repr

/-- The state before the device is attached. -/
def World.init : World :=
  { dev := usb_pd.zero, deleted := false, intfdata := false, registered := false,
    probed := false, bindings := 0, in_flight := [], coherent := 0, urbs := 0, log := [] }

/-- Record a call into a kernel service. -/
def World.emit (w : World) (e : Event) : World :=
  { w with log := w.log ++ [e] }

/-- The result of an entry point: `ret = none` means that the caller sleeps
in the kernel and the call has not returned; otherwise `ret` is the returned
value. -/
structure CallResult where
  ret : Option Int
  world : World
  deriving DecidableEq, Repr

/-! ## Kernel services -/

/-- Outcome of `down_interruptible`. -/
inductive DownResult where
  | acquired (w : World)
  | interrupted
  | blocked

/-- The semaphore operation `down_interruptible(&dev->limit_sem)`: takes a
permit if one is free; otherwise the caller sleeps, and the call fails if a
signal is pending. -/
def down_interruptible (w : World) (signal_pending : Bool) : DownResult :=
  if 0 < w.dev.limit_sem then
    .acquired ({ w with dev := { w.dev with limit_sem := w.dev.limit_sem - 1 } }.emit .down)
  else if signal_pending then .interrupted
  else .blocked

/-- The semaphore operation `up(&dev->limit_sem)`. -/
def up (w : World) : World :=
  { w with dev := { w.dev with limit_sem := w.dev.limit_sem + 1 } }.emit .up

/-- The call `mutex_lock(&dev->io_mutex)`. -/
def mutex_lock (w : World) : World :=
  { w with dev := { w.dev with io_mutex := true } }.emit .mutex_lock

/-- The call `mutex_unlock(&dev->io_mutex)`. -/
def mutex_unlock (w : World) : World :=
  { w with dev := { w.dev with io_mutex := false } }.emit .mutex_unlock

/-- Source lines 51-58: `pd_delete`, which drops the device reference and
frees the receive buffer and the structure. -/
def pd_delete (w : World) : World :=
  { w with dev := { w.dev with udev := false, bulk_in_buffer := false },
           deleted := true }.emit .pd_delete

/-- The call `kref_get(&dev->kref)`. -/
def kref_get (w : World) : World :=
  { w with dev := { w.dev with kref := w.dev.kref + 1 } }.emit .kref_get

/-- The call `kref_put(&dev->kref, pd_delete)`: decrements the count and runs
`pd_delete` when it reaches zero. -/
def kref_put (w : World) : World :=
  let w1 := { w with dev := { w.dev with kref := w.dev.kref - 1 } }.emit .kref_put
  if w1.dev.kref = 0 then pd_delete w1 else w1

/-- The call `usb_alloc_urb(0, GFP_KERNEL)`; `none` is a NULL result. -/
def usb_alloc_urb (w : World) (ok : Bool) : Option World :=
  if ok then some ({ w with urbs := w.urbs + 1 }.emit .usb_alloc_urb) else none

/-- The call `usb_free_urb(urb)`. -/
def usb_free_urb (w : World) : World :=
  { w with urbs := w.urbs - 1 }.emit .usb_free_urb

/-- The call `usb_alloc_coherent(dev->udev, size, ...)`; `none` is a NULL
result. -/
def usb_alloc_coherent (w : World) (size : Nat) (ok : Bool) : Option World :=
  if ok then some ({ w with coherent := w.coherent + 1 }.emit (.usb_alloc_coherent size))
  else none

/-- The call `usb_free_coherent(dev, size, addr, dma)`; it does nothing when
`addr` is NULL (`buf = false`). -/
def usb_free_coherent (w : World) (size : Nat) (buf : Bool) : World :=
  if buf then { w with coherent := w.coherent - 1 }.emit (.usb_free_coherent size) else w

/-! ## Call surface -/

/-- Source lines 61-101: `pd_open`.  `autopm_ret` is the value returned by
`usb_autopm_get_interface`. -/
def pd_open (w : World) (autopm_ret : Int) : CallResult :=
  if !w.registered then
    ⟨some (-ENODEV), w⟩                       -- usb_find_interface returned NULL
  else if !w.intfdata then
    ⟨some (-ENODEV), w⟩                       -- usb_get_intfdata returned NULL
  else
    let w1 := w.emit .usb_autopm_get_interface
    if autopm_ret ≠ 0 then
      ⟨some autopm_ret, w1⟩
    else
      let w2 := kref_get w1
      ⟨some 0, { w2 with bindings := w2.bindings + 1 }⟩

/-- Source lines 102-120: `pd_release`.  `private_data` tells whether the
file's `private_data` is non-NULL (it is for a file that was opened
successfully). -/
def pd_release (w : World) (private_data : Bool) : CallResult :=
  if !private_data then
    ⟨some (-ENODEV), w⟩
  else
    let w1 := mutex_lock w
    let w2 := if w1.dev.interface then w1.emit .usb_autopm_put_interface else w1
    let w3 := mutex_unlock w2
    let w4 := kref_put w3
    ⟨some 0, { w4 with bindings := w4.bindings - 1 }⟩

/-- Outcomes of the kernel services used by `pd_read`: the status returned by
`usb_bulk_msg`, the count it stores in `bytes_read`, and whether
`copy_to_user` copies everything. -/
structure ReadEnv where
  usb_bulk_msg_ret : Int
  actual_length : Int
  copy_to_user_ok : Bool
  deriving DecidableEq, Repr

/-- Source lines 122-156: `pd_read`.  The length handed to `usb_bulk_msg` is
`min(dev->bulk_in_size, count)` converted to `int`; the length handed to
`copy_to_user` is `bytes_read` converted to `unsigned long`. -/
def pd_read (w : World) (count : Nat) (env : ReadEnv) : CallResult :=
  let w1 := mutex_lock w
  if !w1.dev.interface then
    ⟨some (-ENODEV), mutex_unlock w1⟩
  else
    let w2 := w1.emit (.usb_bulk_msg w1.dev.bulk_in_endpointAddr
                (to_int (min w1.dev.bulk_in_size count)))
    let retval := env.usb_bulk_msg_ret
    let bytes_read := env.actual_length
    if retval = 0 then
      let w3 := w2.emit (.copy_to_user (to_ulong bytes_read))
      if !env.copy_to_user_ok then
        ⟨some (-EFAULT), mutex_unlock w3⟩
      else
        ⟨some bytes_read, mutex_unlock w3⟩
    else
      ⟨some retval, mutex_unlock w2⟩

/-- Source lines 158-176: `pd_write_bulk_callback` for the `i`-th
outstanding URB: the transfer buffer is freed and a permit is released,
whatever the status. -/
def pd_write_bulk_callback (w : World) (i : Nat) (_status : Int) : World :=
  match w.in_flight.get? i with
  | none => w
  | some u =>
    let w1 := { w with in_flight := w.in_flight.eraseIdx i }
    let w2 := usb_free_coherent w1 u.transfer_buffer_length true
    up w2

/-- Outcomes of the kernel services used by `pd_write`. -/
structure WriteEnv where
  signal_pending : Bool
  usb_alloc_urb_ok : Bool
  usb_alloc_coherent_ok : Bool
  copy_from_user_ok : Bool
  usb_submit_urb_ret : Int
  deriving DecidableEq, Repr

/-- Source lines 249-259: the `error:` label of `pd_write`; `urb` and `buf`
tell whether the local pointers are non-NULL. -/
def pd_write_error (w : World) (urb buf : Bool) (writesize : Nat) (retval : Int) :
    CallResult :=
  let w1 := if urb then usb_free_urb (usb_free_coherent w writesize buf) else w
  let w2 := mutex_unlock w1
  let w3 := up w2
  ⟨some retval, w3⟩

/-- Source lines 231-232: the length that `usb_fill_bulk_urb` stores in the
URB.  Its parameter is `int buffer_length` and the field
`transfer_buffer_length` is a `u32`, so the `size_t` argument is converted to
`int` and then to `u32`. -/
def urb_buffer_length (writesize : Nat) : Nat := to_u32 (to_int (writesize : Int))

/-- Source lines 179-263: `pd_write`. -/
def pd_write (PAGE_SIZE : Nat) (w : World) (count : Nat) (env : WriteEnv) : CallResult :=
  let writesize := min count (MAX_TRANSFER PAGE_SIZE)
  if count = 0 then
    ⟨some 0, w⟩
  else
    match down_interruptible w env.signal_pending with
    | .blocked => ⟨none, w⟩
    | .interrupted => ⟨some (-ERESTARTSYS), w⟩
    | .acquired w1 =>
      let w2 := mutex_lock w1
      if !w2.dev.interface then
        pd_write_error w2 false false writesize (-ENODEV)
      else
        match usb_alloc_urb w2 env.usb_alloc_urb_ok with
        | none => pd_write_error w2 false false writesize (-ENOMEM)
        | some w3 =>
          match usb_alloc_coherent w3 writesize env.usb_alloc_coherent_ok with
          | none => pd_write_error w3 true false writesize (-ENOMEM)
          | some w4 =>
            let w5 := w4.emit (.copy_from_user writesize)
            if !env.copy_from_user_ok then
              pd_write_error w5 true true writesize (-EFAULT)
            else
              let u : urb := ⟨w5.dev.bulk_out_endpointAddr, urb_buffer_length writesize⟩
              let w6 := w5.emit (.usb_submit_urb u)
              let retval := env.usb_submit_urb_ret
              if retval ≠ 0 then
                pd_write_error w6 true true writesize retval
              else
                let w7 := { w6 with in_flight := w6.in_flight ++ [u] }
                let w8 := usb_free_urb w7
                ⟨some (to_ssize_t writesize), mutex_unlock w8⟩

/-! ## Lifecycle -/

/-- Outcomes of the kernel services used by `pd_probe`. -/
structure ProbeEnv where
  kzalloc_ok : Bool
  kmalloc_ok : Bool
  usb_alloc_urb_ok : Bool
  usb_register_dev_ret : Int
  deriving DecidableEq, Repr

/-- Source lines 313-316: the test for a bulk-in endpoint, without the
`!dev->bulk_in_endpointAddr` conjunct. -/
def is_bulk_in (e : usb_endpoint_descriptor) : Bool :=
  (e.addr &&& USB_DIR_IN != 0) &&
    (e.attrs &&& USB_ENDPOINT_XFERTYPE_MASK == USB_ENDPOINT_XFER_BULK)

/-- Source lines 341-344: the test for a bulk-out endpoint, without the
`!dev->bulk_out_endpointAddr` conjunct. -/
def is_bulk_out (e : usb_endpoint_descriptor) : Bool :=
  !(e.addr &&& USB_DIR_IN != 0) &&
    (e.attrs &&& USB_ENDPOINT_XFERTYPE_MASK == USB_ENDPOINT_XFER_BULK)

/-- Source lines 311-351: one iteration of the endpoint loop of `pd_probe`.
`Except.error` is `goto error` with the state reached so far. -/
def probe_endpoint (env : ProbeEnv) (w : World) (e : usb_endpoint_descriptor) :
    Except World World :=
  let r1 : Except World World :=
    if w.dev.bulk_in_endpointAddr == 0 && is_bulk_in e then
      let buffer_size := e.maxp
      let w1 := { w with dev := { w.dev with bulk_in_size := buffer_size,
                                             bulk_in_endpointAddr := e.addr,
                                             bulk_in_buffer := env.kmalloc_ok } }
      if !w1.dev.bulk_in_buffer then .error w1
      else
        match usb_alloc_urb w1 env.usb_alloc_urb_ok with
        | none => .error w1
        | some w2 => .ok { w2 with dev := { w2.dev with bulk_in_urb := true } }
    else .ok w
  match r1 with
  | .error w1 => .error w1
  | .ok w1 =>
    if w1.dev.bulk_out_endpointAddr == 0 && is_bulk_out e then
      .ok { w1 with dev := { w1.dev with bulk_out_endpointAddr := e.addr } }
    else .ok w1

/-- Source lines 309-352: the endpoint loop of `pd_probe` over the
`bNumEndpoints` descriptors of the current alternate setting. -/
def probe_scan (env : ProbeEnv) : World → List usb_endpoint_descriptor → Except World World
  | w, [] => .ok w
  | w, e :: rest =>
    match probe_endpoint env w e with
    | .error w1 => .error w1
    | .ok w1 => probe_scan env w1 rest

/-- Source lines 377-380: the `error:` label of `pd_probe` when `dev` is
non-NULL. -/
def pd_probe_error (w : World) (retval : Int) : CallResult :=
  ⟨some retval, kref_put w⟩

/-- Source lines 293-304 of `pd_probe`: the zeroed structure after
`kref_init`, `sema_init(&dev->limit_sem, WRITES_IN_FLIGHT)`, `mutex_init` and
the assignments of `udev` and `interface`. -/
def probe_start (w : World) : World :=
  { w with dev := { usb_pd.zero with kref := 1, limit_sem := WRITES_IN_FLIGHT,
                                     io_mutex := false, udev := true, interface := true } }

/-- Source lines 282-383: `pd_probe`. -/
def pd_probe (w : World) (eps : List usb_endpoint_descriptor) (env : ProbeEnv) : CallResult :=
  let retval := -ENOMEM
  if !env.kzalloc_ok then
    ⟨some retval, w⟩
  else
    let w1 := probe_start w
    match probe_scan env w1 eps with
    | .error w2 => pd_probe_error w2 retval
    | .ok w2 =>
      if !(w2.dev.bulk_in_endpointAddr != 0 && w2.dev.bulk_out_endpointAddr != 0) then
        pd_probe_error w2 retval
      else
        let w3 := { w2 with intfdata := true }
        let w4 := w3.emit .usb_register_dev
        let retval := env.usb_register_dev_ret
        if retval ≠ 0 then
          pd_probe_error { w4 with intfdata := false } retval
        else
          ⟨some 0, { w4 with registered := true, probed := true }⟩

/-- Source lines 385-413: `pd_disconnect`. -/
def pd_disconnect (w : World) : World :=
  let w1 := { w with intfdata := false }
  let w2 := { w1 with registered := false }.emit .usb_deregister_dev
  let w3 := mutex_lock w2
  let w4 := { w3 with dev := { w3.dev with interface := false } }
  let w5 := mutex_unlock w4
  kref_put w5

/-! ## The driver as a transition system -/

/-- The calls the kernel can make into the driver for one interface. -/
inductive Step where
  | attach (eps : List usb_endpoint_descriptor) (env : ProbeEnv)
  | fopen (autopm_ret : Int)
  | fclose
  | detach
  | read (count : Nat) (env : ReadEnv)
  | write (count : Nat) (env : WriteEnv)
  | complete (i : Nat) (status : Int)
  deriving DecidableEq, Repr

/-- One call into the driver.  `none` means that the kernel cannot make the
call in this state: `attach` creates the session once, by a `pd_probe` that
returns 0; `fclose`, `read` and `write` need an open file; `detach` needs an
attached device; `complete` needs the `i`-th outstanding URB. -/
def step (PAGE_SIZE : Nat) (w : World) : Step → Option World
  | .attach eps env =>
    if !w.probed && (pd_probe w eps env).ret == some 0 then some (pd_probe w eps env).world
    else none
  | .fopen autopm_ret => some (pd_open w autopm_ret).world
  | .fclose => if 0 < w.bindings then some (pd_release w true).world else none
  | .detach => if w.registered then some (pd_disconnect w) else none
  | .read count env => if 0 < w.bindings then some (pd_read w count env).world else none
  | .write count env =>
    if 0 < w.bindings then some (pd_write PAGE_SIZE w count env).world else none
  | .complete i status =>
    if i < w.in_flight.length then some (pd_write_bulk_callback w i status) else none

/-- A sequence of calls into the driver. -/
def run (PAGE_SIZE : Nat) : World → List Step → Option World
  | w, [] => some w
  | w, s :: rest =>
    match step PAGE_SIZE w s with
    | none => none
    | some w1 => run PAGE_SIZE w1 rest

/-- The device has been detached: `pd_probe` succeeded and `pd_disconnect`
has cleared `dev->interface`. -/
def World.detached (w : World) : Bool := w.probed && !w.dev.interface

/-- Number of transport calls (synchronous transfers and asynchronous
submissions) in a log. -/
def transport_calls (log : List Event) : Nat := (log.filter Event.isTransport).length

/-! ## Definitions used to state the properties -/

/-- The state carried by an `Except` result of the endpoint loop, on either
exit. -/
def scan_world : Except World World → World
  | .ok w => w
  | .error w => w

/-- The part of the state that the endpoint loop of `pd_probe` never
touches; from the log, everything but `usb_alloc_urb` calls. -/
def World.scan_frame (w : World) :=
  (w.dev.kref, w.dev.limit_sem, w.dev.interface, w.dev.io_mutex, w.dev.udev, w.deleted,
    w.intfdata, w.registered, w.probed, w.bindings, w.in_flight, w.coherent,
    w.log.filter (fun e => e != Event.usb_alloc_urb))

/-- The endpoint that `pd_probe` selects for reading: the first bulk-in
endpoint of the list. -/
def first_bulk_in (eps : List usb_endpoint_descriptor) : Option usb_endpoint_descriptor :=
  eps.find? is_bulk_in

/-- The endpoint that `pd_probe` selects for writing: the first bulk-out
endpoint of the list whose address is not zero. -/
def first_bulk_out (eps : List usb_endpoint_descriptor) : Option usb_endpoint_descriptor :=
  eps.find? (fun e => is_bulk_out e && e.addr != 0)

/-- The invariant of the states reachable from `World.init`. -/
structure Inv (w : World) : Prop where
  unprobed : w.probed = false → w = World.init
  kref_eq : w.probed = true →
    w.dev.kref = (if w.dev.interface = true then 1 else 0) + (w.bindings : Int)
  deleted_iff : w.probed = true → (w.deleted = true ↔ w.dev.kref = 0)
  reg : w.probed = true → w.registered = w.dev.interface ∧ w.intfdata = w.dev.interface
  permits : w.probed = true → w.dev.limit_sem + w.in_flight.length = WRITES_IN_FLIGHT
  mutex : w.dev.io_mutex = false
  size : w.dev.bulk_in_size < 65536
  coherent : w.coherent = w.in_flight.length

/-- The part of the state that `pd_write` never touches. -/
def World.write_frame (w : World) :=
  (w.dev.kref, w.dev.interface, w.dev.bulk_in_size, w.dev.bulk_in_endpointAddr,
    w.dev.bulk_out_endpointAddr, w.deleted, w.intfdata, w.registered, w.probed, w.bindings)

/-! ## Write path -/

/-- C5: `pd_write` with `count = 0` returns 0 and leaves the whole state
unchanged (no permit taken, mutex not acquired, nothing allocated, nothing
submitted, no kernel service called), whatever the session state is. -/
theorem pd_write_zero_noop (PAGE_SIZE : Nat) (w : World) (env : WriteEnv) :
    pd_write PAGE_SIZE w 0 env = ⟨some 0, w⟩ := by
  simp [pd_write]

theorem MAX_TRANSFER_eq (PAGE_SIZE : Nat) (h1 : 512 ≤ PAGE_SIZE) (h2 : PAGE_SIZE ≤ 2 ^ 63) :
    MAX_TRANSFER PAGE_SIZE = PAGE_SIZE - 512 := by
  unfold MAX_TRANSFER
  have : PAGE_SIZE + 2 ^ 64 - 512 = (PAGE_SIZE - 512) + 2 ^ 64 := by omega
  rw [this, Nat.add_mod_right]
  apply Nat.mod_eq_of_lt
  omega

theorem to_ssize_t_small (n : Nat) (h : n < 2 ^ 63) : to_ssize_t n = (n : Int) := by
  unfold to_ssize_t
  have h1 : n % 2 ^ 64 = n := Nat.mod_eq_of_lt (by omega)
  rw [h1, if_pos h]

theorem to_int_small (n : Nat) (h : n < 2 ^ 31) : to_int (n : Int) = (n : Int) := by
  unfold to_int
  have h1 : ((n : Int)) % 2 ^ 32 = (n : Int) := Int.emod_eq_of_lt (by omega) (by omega)
  rw [h1, if_pos (by omega)]

theorem urb_buffer_length_small (n : Nat) (h : n < 2 ^ 31) : urb_buffer_length n = n := by
  unfold urb_buffer_length to_u32
  rw [to_int_small n h, Int.emod_eq_of_lt (by omega) (by omega)]
  simp

/-- The successful path of `pd_write`. -/
theorem pd_write_success (PAGE_SIZE : Nat) (w : World) (count : Nat) (env : WriteEnv)
    (hcount : 0 < count) (hpermit : 0 < w.dev.limit_sem) (hlive : w.dev.interface = true)
    (hurb : env.usb_alloc_urb_ok = true) (hbuf : env.usb_alloc_coherent_ok = true)
    (hcopy : env.copy_from_user_ok = true) (hsubmit : env.usb_submit_urb_ret = 0) :
    pd_write PAGE_SIZE w count env =
      ⟨some (to_ssize_t (min count (MAX_TRANSFER PAGE_SIZE))),
       { w with
         dev := { w.dev with limit_sem := w.dev.limit_sem - 1, io_mutex := false }
         in_flight := w.in_flight ++
           [⟨w.dev.bulk_out_endpointAddr,
             urb_buffer_length (min count (MAX_TRANSFER PAGE_SIZE))⟩]
         coherent := w.coherent + 1
         urbs := w.urbs + 1 - 1
         log := w.log ++ [.down, .mutex_lock, .usb_alloc_urb,
           .usb_alloc_coherent (min count (MAX_TRANSFER PAGE_SIZE)),
           .copy_from_user (min count (MAX_TRANSFER PAGE_SIZE)),
           .usb_submit_urb ⟨w.dev.bulk_out_endpointAddr,
             urb_buffer_length (min count (MAX_TRANSFER PAGE_SIZE))⟩,
           .usb_free_urb, .mutex_unlock] }⟩ := by
  have hc : count ≠ 0 := by omega
  simp [pd_write, hc, down_interruptible, hpermit, mutex_lock, World.emit, hlive,
    usb_alloc_urb, hurb, usb_alloc_coherent, hbuf, hcopy, hsubmit, usb_free_urb, mutex_unlock]

/-- C4: a write of `count > 0` bytes on a live session that obtains its
permit and whose allocation, copy and submission succeed returns exactly
`min(count, MAX_TRANSFER)` with `MAX_TRANSFER = PAGE_SIZE - 512`; the submitted
transfer request (and the buffer allocation and the copy from the caller)
carries exactly that many bytes; for `count > MAX_TRANSFER` the result is
`MAX_TRANSFER`, not `count`.  `PAGE_SIZE` is the page size of the kernel, with
`MAX_TRANSFER` in the range of `int`, the type through which the length reaches
the URB. -/
theorem pd_write_returns_min (PAGE_SIZE : Nat) (w : World) (count : Nat) (env : WriteEnv)
    (hpage : 512 ≤ PAGE_SIZE) (hpage2 : PAGE_SIZE - 512 < 2 ^ 31)
    (hcount : 0 < count) (hpermit : 0 < w.dev.limit_sem) (hlive : w.dev.interface = true)
    (hurb : env.usb_alloc_urb_ok = true) (hbuf : env.usb_alloc_coherent_ok = true)
    (hcopy : env.copy_from_user_ok = true) (hsubmit : env.usb_submit_urb_ret = 0) :
    MAX_TRANSFER PAGE_SIZE = PAGE_SIZE - 512 ∧
    (pd_write PAGE_SIZE w count env).ret = some ((min count (PAGE_SIZE - 512) : Nat) : Int) ∧
    (pd_write PAGE_SIZE w count env).world.in_flight =
      w.in_flight ++ [⟨w.dev.bulk_out_endpointAddr, min count (PAGE_SIZE - 512)⟩] ∧
    Event.usb_alloc_coherent (min count (PAGE_SIZE - 512)) ∈
      (pd_write PAGE_SIZE w count env).world.log ∧
    Event.copy_from_user (min count (PAGE_SIZE - 512)) ∈
      (pd_write PAGE_SIZE w count env).world.log ∧
    Event.usb_submit_urb ⟨w.dev.bulk_out_endpointAddr, min count (PAGE_SIZE - 512)⟩ ∈
      (pd_write PAGE_SIZE w count env).world.log ∧
    transport_calls (pd_write PAGE_SIZE w count env).world.log = transport_calls w.log + 1 ∧
    (PAGE_SIZE - 512 < count →
      (pd_write PAGE_SIZE w count env).ret = some ((PAGE_SIZE - 512 : Nat) : Int) ∧
      (pd_write PAGE_SIZE w count env).ret ≠ some (count : Int)) := by
  have hmax := MAX_TRANSFER_eq PAGE_SIZE hpage (by omega)
  have hlt31 : min count (PAGE_SIZE - 512) < 2 ^ 31 := by
    have := Nat.min_le_right count (PAGE_SIZE - 512)
    omega
  have hlt : min count (PAGE_SIZE - 512) < 2 ^ 63 := by omega
  have hlen := urb_buffer_length_small _ hlt31
  rw [pd_write_success PAGE_SIZE w count env hcount hpermit hlive hurb hbuf hcopy hsubmit, hmax,
    hlen]
  refine ⟨rfl, ?_, rfl, ?_, ?_, ?_, ?_, ?_⟩
  · simp only [to_ssize_t_small _ hlt]
  · simp
  · simp
  · simp
  · simp [transport_calls, List.filter_append, Event.isTransport, List.filter]
  · intro hgt
    have hmin : min count (PAGE_SIZE - 512) = PAGE_SIZE - 512 := Nat.min_eq_right (by omega)
    dsimp only
    rw [to_ssize_t_small _ hlt, hmin]
    refine ⟨rfl, ?_⟩
    intro h
    have h2 := Option.some.inj h
    omega

/-- Witness for C4 with 4 KiB pages: a 5000-byte write submits a URB of 3584
bytes. -/
theorem pd_write_returns_min_witness :
    (pd_write 4096 { World.init with dev := { usb_pd.zero with limit_sem := 8, interface := true } }
      5000 ⟨false, true, true, true, 0⟩).world.in_flight = [] ++ [⟨0, min 5000 (4096 - 512)⟩] :=
  (pd_write_returns_min 4096
    { World.init with dev := { usb_pd.zero with limit_sem := 8, interface := true } }
    5000 ⟨false, true, true, true, 0⟩ (by norm_num) (by norm_num) (by norm_num) (by decide) rfl
    rfl rfl rfl rfl).2.2.1

/-- The `error:` exits of `pd_write`, reached after the permit was taken. -/
theorem pd_write_error_path (PAGE_SIZE : Nat) (w : World) (count : Nat) (env : WriteEnv)
    (hcount : 0 < count) (hpermit : 0 < w.dev.limit_sem)
    (hfail : w.dev.interface = false ∨ env.usb_alloc_urb_ok = false ∨
      env.usb_alloc_coherent_ok = false ∨ env.copy_from_user_ok = false ∨
      env.usb_submit_urb_ret ≠ 0) :
    (pd_write PAGE_SIZE w count env).world.dev.limit_sem = w.dev.limit_sem ∧
    (pd_write PAGE_SIZE w count env).world.dev.io_mutex = false ∧
    (pd_write PAGE_SIZE w count env).world.coherent = w.coherent ∧
    (pd_write PAGE_SIZE w count env).world.urbs = w.urbs ∧
    (pd_write PAGE_SIZE w count env).world.in_flight = w.in_flight ∧
    (pd_write PAGE_SIZE w count env).ret ≠ none ∧
    (w.dev.interface = false →
      (pd_write PAGE_SIZE w count env).ret = some (-ENODEV) ∧
      transport_calls (pd_write PAGE_SIZE w count env).world.log = transport_calls w.log) ∧
    (w.dev.interface = true → env.usb_alloc_urb_ok = true →
      env.usb_alloc_coherent_ok = true → env.copy_from_user_ok = true →
      (pd_write PAGE_SIZE w count env).ret = some env.usb_submit_urb_ret) := by
  have hc : count ≠ 0 := by omega
  have hsem : w.dev.limit_sem - 1 + 1 = w.dev.limit_sem := by omega
  cases hlive : w.dev.interface <;> cases hurb : env.usb_alloc_urb_ok <;>
    cases hbuf : env.usb_alloc_coherent_ok <;> cases hcopy : env.copy_from_user_ok <;>
    by_cases hsub : env.usb_submit_urb_ret = 0 <;>
    simp_all [pd_write, down_interruptible, mutex_lock, World.emit, usb_alloc_urb,
      usb_alloc_coherent, pd_write_error, usb_free_coherent, usb_free_urb, mutex_unlock, up,
      transport_calls, List.filter_append, List.filter, Event.isTransport]

/-- C9: a `pd_write` call with `count > 0` that acquires a permit and then
fails (device not live, URB or buffer allocation failure, copy fault, or
submission failure) returns with the number of free permits equal to its value
before the call, the I/O mutex released, every buffer and URB allocated during
the call freed, and no transfer request left outstanding; a non-live device
yields `-ENODEV` and a submission failure yields the error of the transport. -/
theorem pd_write_failure_restores (PAGE_SIZE : Nat) (w : World) (count : Nat) (env : WriteEnv)
    (hcount : 0 < count) (hpermit : 0 < w.dev.limit_sem)
    (hfail : w.dev.interface = false ∨ env.usb_alloc_urb_ok = false ∨
      env.usb_alloc_coherent_ok = false ∨ env.copy_from_user_ok = false ∨
      env.usb_submit_urb_ret ≠ 0) :
    (pd_write PAGE_SIZE w count env).world.dev.limit_sem = w.dev.limit_sem ∧
    (pd_write PAGE_SIZE w count env).world.dev.io_mutex = false ∧
    (pd_write PAGE_SIZE w count env).world.coherent = w.coherent ∧
    (pd_write PAGE_SIZE w count env).world.urbs = w.urbs ∧
    (pd_write PAGE_SIZE w count env).world.in_flight = w.in_flight ∧
    (pd_write PAGE_SIZE w count env).ret ≠ none ∧
    (w.dev.interface = false →
      (pd_write PAGE_SIZE w count env).ret = some (-ENODEV) ∧
      transport_calls (pd_write PAGE_SIZE w count env).world.log = transport_calls w.log) ∧
    (w.dev.interface = true → env.usb_alloc_urb_ok = true →
      env.usb_alloc_coherent_ok = true → env.copy_from_user_ok = true →
      (pd_write PAGE_SIZE w count env).ret = some env.usb_submit_urb_ret) := by
  have hc : count ≠ 0 := by omega
  have hsem : w.dev.limit_sem - 1 + 1 = w.dev.limit_sem := by omega
  unfold pd_write
  simp only [hc, if_false, down_interruptible, hpermit, if_true]
  cases hlive : w.dev.interface
  · simp [mutex_lock, World.emit, pd_write_error, mutex_unlock, up, hlive, hsem,
      transport_calls, List.filter_append, List.filter, Event.isTransport]
  cases hurb : env.usb_alloc_urb_ok
  · simp [mutex_lock, World.emit, pd_write_error, mutex_unlock, up, hlive, hsem, usb_alloc_urb]
  cases hbuf : env.usb_alloc_coherent_ok
  · simp [mutex_lock, World.emit, pd_write_error, mutex_unlock, up, hlive, hsem, usb_alloc_urb,
      usb_alloc_coherent, usb_free_coherent, usb_free_urb]
  cases hcopy : env.copy_from_user_ok
  · simp [mutex_lock, World.emit, pd_write_error, mutex_unlock, up, hlive, hsem, usb_alloc_urb,
      usb_alloc_coherent, usb_free_coherent, usb_free_urb]
  have hsub : env.usb_submit_urb_ret ≠ 0 := by
    rcases hfail with h | h | h | h | h
    · rw [hlive] at h; cases h
    · rw [hurb] at h; cases h
    · rw [hbuf] at h; cases h
    · rw [hcopy] at h; cases h
    · exact h
  simp [mutex_lock, World.emit, pd_write_error, mutex_unlock, up, hlive, hsem, usb_alloc_urb,
    usb_alloc_coherent, usb_free_coherent, usb_free_urb, hsub]

/-- Witness for C9: a failed submission (`-ENOMEM` from the transport) on a
live session with 8 free permits. -/
theorem pd_write_failure_restores_witness :
    (pd_write 4096 { World.init with dev := { usb_pd.zero with limit_sem := 8, interface := true } }
      100 ⟨false, true, true, true, -12⟩).world.dev.limit_sem = 8 :=
  (pd_write_failure_restores 4096
    { World.init with dev := { usb_pd.zero with limit_sem := 8, interface := true } }
    100 ⟨false, true, true, true, -12⟩ (by decide) (by decide)
    (Or.inr (Or.inr (Or.inr (Or.inr (by decide)))))).1

/-! ## Attach -/

theorem is_bulk_in_addr_ne_zero (e : usb_endpoint_descriptor) (h : is_bulk_in e = true) :
    e.addr ≠ 0 := by
  intro h0
  simp [is_bulk_in, h0] at h

theorem probe_endpoint_frame (env : ProbeEnv) (w : World) (e : usb_endpoint_descriptor) :
    (scan_world (probe_endpoint env w e)).scan_frame = w.scan_frame ∧
    (w.dev.bulk_in_size < 65536 →
      (scan_world (probe_endpoint env w e)).dev.bulk_in_size < 65536) := by
  have hm : e.maxp < 65536 := Nat.mod_lt _ (by norm_num)
  unfold probe_endpoint
  cases hk : env.kmalloc_ok <;> cases hu : env.usb_alloc_urb_ok <;>
    by_cases h1 : w.dev.bulk_in_endpointAddr = 0 <;> cases h2 : is_bulk_in e <;>
    by_cases h3 : w.dev.bulk_out_endpointAddr = 0 <;> cases h4 : is_bulk_out e <;>
    simp [h1, h2, h3, h4, hk, hu, usb_alloc_urb, World.emit, scan_world, World.scan_frame,
      List.filter_append, List.filter, hm]

theorem probe_scan_frame (env : ProbeEnv) (eps : List usb_endpoint_descriptor) :
    ∀ w : World, (scan_world (probe_scan env w eps)).scan_frame = w.scan_frame ∧
      (w.dev.bulk_in_size < 65536 →
        (scan_world (probe_scan env w eps)).dev.bulk_in_size < 65536) := by
  induction eps with
  | nil => intro w; simp [probe_scan, scan_world]
  | cons e rest ih =>
    intro w
    have h1 := probe_endpoint_frame env w e
    unfold probe_scan
    cases hr : probe_endpoint env w e with
    | error w1 =>
      rw [hr] at h1
      simpa [scan_world] using h1
    | ok w1 =>
      rw [hr] at h1
      simp only [scan_world] at h1
      have h2 := ih w1
      simp only
      exact ⟨h2.1.trans h1.1, fun h => h2.2 (h1.2 h)⟩

theorem probe_endpoint_ok (env : ProbeEnv) (w : World) (e : usb_endpoint_descriptor)
    (hk : env.kmalloc_ok = true) (hu : env.usb_alloc_urb_ok = true) :
    ∃ w1, probe_endpoint env w e = .ok w1 ∧
      w1.dev.bulk_in_endpointAddr =
        (if w.dev.bulk_in_endpointAddr = 0 ∧ is_bulk_in e = true then e.addr
         else w.dev.bulk_in_endpointAddr) ∧
      w1.dev.bulk_in_size =
        (if w.dev.bulk_in_endpointAddr = 0 ∧ is_bulk_in e = true then e.maxp
         else w.dev.bulk_in_size) ∧
      w1.dev.bulk_out_endpointAddr =
        (if w.dev.bulk_out_endpointAddr = 0 ∧ is_bulk_out e = true then e.addr
         else w.dev.bulk_out_endpointAddr) := by
  unfold probe_endpoint
  by_cases h1 : w.dev.bulk_in_endpointAddr = 0 <;> cases h2 : is_bulk_in e <;>
    by_cases h3 : w.dev.bulk_out_endpointAddr = 0 <;> cases h4 : is_bulk_out e <;>
    simp [h1, h2, h3, h4, hk, hu, usb_alloc_urb, World.emit]

theorem probe_scan_ok (env : ProbeEnv) (eps : List usb_endpoint_descriptor)
    (hk : env.kmalloc_ok = true) (hu : env.usb_alloc_urb_ok = true) :
    ∀ w : World, ∃ w1, probe_scan env w eps = .ok w1 ∧
      w1.dev.bulk_in_endpointAddr =
        (if w.dev.bulk_in_endpointAddr = 0 then
          ((first_bulk_in eps).map usb_endpoint_descriptor.addr).getD 0
         else w.dev.bulk_in_endpointAddr) ∧
      w1.dev.bulk_in_size =
        (if w.dev.bulk_in_endpointAddr = 0 then
          ((first_bulk_in eps).map usb_endpoint_descriptor.maxp).getD w.dev.bulk_in_size
         else w.dev.bulk_in_size) ∧
      w1.dev.bulk_out_endpointAddr =
        (if w.dev.bulk_out_endpointAddr = 0 then
          ((first_bulk_out eps).map usb_endpoint_descriptor.addr).getD 0
         else w.dev.bulk_out_endpointAddr) := by
  induction eps with
  | nil =>
    intro w
    refine ⟨w, rfl, ?_, ?_, ?_⟩
    · by_cases h : w.dev.bulk_in_endpointAddr = 0 <;> simp [h, first_bulk_in]
    · simp [first_bulk_in]
    · by_cases h : w.dev.bulk_out_endpointAddr = 0 <;> simp [h, first_bulk_out]
  | cons e rest ih =>
    intro w
    obtain ⟨w1, hw1, a1, b1, c1⟩ := probe_endpoint_ok env w e hk hu
    obtain ⟨w2, hw2, a2, b2, c2⟩ := ih w1
    refine ⟨w2, ?_, ?_, ?_, ?_⟩
    · simp [probe_scan, hw1, hw2]
    · rw [a2, a1]
      by_cases h1 : w.dev.bulk_in_endpointAddr = 0 <;> cases h2 : is_bulk_in e <;>
        simp [h1, h2, first_bulk_in, List.find?]
      exact fun h => absurd h (is_bulk_in_addr_ne_zero e h2)
    · rw [b2, a1, b1]
      by_cases h1 : w.dev.bulk_in_endpointAddr = 0 <;> cases h2 : is_bulk_in e <;>
        simp [h1, h2, first_bulk_in, List.find?]
      exact fun h => absurd h (is_bulk_in_addr_ne_zero e h2)
    · rw [c2, c1]
      by_cases h1 : w.dev.bulk_out_endpointAddr = 0 <;> cases h2 : is_bulk_out e <;>
        cases h3 : (e.addr != 0) <;>
        simp [h1, h2, h3, first_bulk_out, List.find?]
      all_goals
        intro h4
        first
          | exact absurd (by simpa using h3) h4
          | exact absurd h4 (by simpa using h3)

theorem mem_of_scan_frame (w w1 : World) (e : Event) (he : (e != Event.usb_alloc_urb) = true)
    (h : w1.scan_frame = w.scan_frame) : e ∈ w1.log ↔ e ∈ w.log := by
  have hl : w1.log.filter (fun e => e != Event.usb_alloc_urb) =
      w.log.filter (fun e => e != Event.usb_alloc_urb) := by
    simp only [World.scan_frame, Prod.mk.injEq] at h
    exact h.2.2.2.2.2.2.2.2.2.2.2.2
  have h1 : e ∈ w1.log.filter (fun e => e != Event.usb_alloc_urb) ↔ e ∈ w1.log := by
    rw [List.mem_filter]; exact ⟨fun h => h.1, fun h => ⟨h, he⟩⟩
  have h2 : e ∈ w.log.filter (fun e => e != Event.usb_alloc_urb) ↔ e ∈ w.log := by
    rw [List.mem_filter]; exact ⟨fun h => h.1, fun h => ⟨h, he⟩⟩
  rw [← h1, ← h2, hl]

/-- C8 (behaviour of the code): when the endpoint list has no bulk-in endpoint
or no bulk-out endpoint and all allocations succeed, `pd_probe` returns
`-ENOMEM`, the very value it returns when `kzalloc` fails; the reference count
of the partially constructed state drops from 1 to 0, `pd_delete` runs, and the
state is never registered (`usb_register_dev` is not called, the interface data
and the minor registration are as before). -/
theorem pd_probe_missing_endpoint (w : World) (eps : List usb_endpoint_descriptor)
    (env : ProbeEnv) (hz : env.kzalloc_ok = true) (hk : env.kmalloc_ok = true)
    (hu : env.usb_alloc_urb_ok = true)
    (hmiss : (∀ e ∈ eps, is_bulk_in e = false) ∨ (∀ e ∈ eps, is_bulk_out e = false)) :
    (pd_probe w eps env).ret = some (-ENOMEM) ∧
    (pd_probe w eps { env with kzalloc_ok := false }).ret = some (-ENOMEM) ∧
    (probe_start w).dev.kref = 1 ∧
    (pd_probe w eps env).world.dev.kref = 0 ∧
    (pd_probe w eps env).world.deleted = true ∧
    (pd_probe w eps env).world.registered = w.registered ∧
    (pd_probe w eps env).world.intfdata = w.intfdata ∧
    (pd_probe w eps env).world.probed = w.probed ∧
    (Event.usb_register_dev ∈ (pd_probe w eps env).world.log ↔
      Event.usb_register_dev ∈ w.log) := by
  obtain ⟨w2, hw2, a, -, c⟩ := probe_scan_ok env eps hk hu (probe_start w)
  have hf := (probe_scan_frame env eps (probe_start w)).1
  rw [hw2] at hf
  simp only [scan_world] at hf
  have hmem := mem_of_scan_frame (probe_start w) w2 Event.usb_register_dev (by decide) hf
  simp only [World.scan_frame, Prod.mk.injEq] at hf
  obtain ⟨hkref, -, -, -, -, hdel, hintf, hreg, hprobed, -⟩ := hf
  have hzero : w2.dev.bulk_in_endpointAddr = 0 ∨ w2.dev.bulk_out_endpointAddr = 0 := by
    rcases hmiss with h | h
    · left
      have : first_bulk_in eps = none := by
        simp only [first_bulk_in, List.find?_eq_none]
        intro e he; simp [h e he]
      rw [a, this]; simp [probe_start, usb_pd.zero]
    · right
      have : first_bulk_out eps = none := by
        simp only [first_bulk_out, List.find?_eq_none]
        intro e he; simp [h e he]
      rw [c, this]; simp [probe_start, usb_pd.zero]
  have hcond : (!(w2.dev.bulk_in_endpointAddr != 0 && w2.dev.bulk_out_endpointAddr != 0)) = true := by
    rcases hzero with h | h <;> simp [h]
  have hres : pd_probe w eps env = ⟨some (-ENOMEM), kref_put w2⟩ := by
    simp only [pd_probe, hz, hw2, pd_probe_error, hcond]
    simp
  have hk1 : w2.dev.kref = 1 := by rw [hkref]; simp [probe_start]
  rw [hres]
  refine ⟨rfl, ?_, ?_, ?_, ?_, ?_, ?_, ?_, ?_⟩
  · simp [pd_probe]
  · simp [probe_start]
  · simp [kref_put, World.emit, hk1, pd_delete]
  · simp [kref_put, World.emit, hk1, pd_delete]
  · simp [kref_put, World.emit, hk1, pd_delete, hreg, probe_start]
  · simp [kref_put, World.emit, hk1, pd_delete, hintf, probe_start]
  · simp [kref_put, World.emit, hk1, pd_delete, hprobed, probe_start]
  · simp [kref_put, World.emit, hk1, pd_delete, hmem, probe_start]

/-- Witness for C8: a device whose only endpoint is a bulk-in endpoint. -/
theorem pd_probe_missing_endpoint_witness :
    (pd_probe World.init [⟨0x81, 2, 64⟩] ⟨true, true, true, 0⟩).ret = some (-ENOMEM) :=
  (pd_probe_missing_endpoint World.init [⟨0x81, 2, 64⟩] ⟨true, true, true, 0⟩ rfl rfl rfl
    (Or.inr (by decide))).1

/-- C10, counterexample: the list holds a bulk-in endpoint (address `0x81`)
and a bulk-out endpoint (address `0x00`), all allocations and the registration
succeed, and yet `pd_probe` fails. -/
theorem pd_probe_zero_out_address :
    is_bulk_in ⟨0x81, 2, 64⟩ = true ∧ is_bulk_out ⟨0x00, 2, 64⟩ = true ∧
    (pd_probe World.init [⟨0x81, 2, 64⟩, ⟨0x00, 2, 64⟩] ⟨true, true, true, 0⟩).ret =
      some (-ENOMEM) ∧
    (pd_probe World.init [⟨0x81, 2, 64⟩, ⟨0x00, 2, 64⟩] ⟨true, true, true, 0⟩).ret ≠ some 0 := by
  decide

/-- C10 (amended): when the list holds a bulk-in endpoint and a bulk-out
endpoint with a non-zero address, and allocations and registration succeed,
`pd_probe` returns 0 and records the address of the first bulk-in endpoint, the
address of the first bulk-out endpoint whose address is not zero, and the
maximum packet size of that first bulk-in endpoint as the receive buffer
size. -/
theorem pd_probe_selects_first (w : World) (eps : List usb_endpoint_descriptor)
    (env : ProbeEnv) (ein eout : usb_endpoint_descriptor)
    (hz : env.kzalloc_ok = true) (hk : env.kmalloc_ok = true)
    (hu : env.usb_alloc_urb_ok = true) (hr : env.usb_register_dev_ret = 0)
    (hin : eps.find? is_bulk_in = some ein)
    (hout : eps.find? (fun e => is_bulk_out e && e.addr != 0) = some eout) :
    (pd_probe w eps env).ret = some 0 ∧
    (pd_probe w eps env).world.dev.bulk_in_endpointAddr = ein.addr ∧
    (pd_probe w eps env).world.dev.bulk_out_endpointAddr = eout.addr ∧
    (pd_probe w eps env).world.dev.bulk_in_size = ein.maxp ∧
    (pd_probe w eps env).world.registered = true ∧
    (pd_probe w eps env).world.intfdata = true := by
  obtain ⟨w2, hw2, a, b, c⟩ := probe_scan_ok env eps hk hu (probe_start w)
  have hi : first_bulk_in eps = some ein := hin
  have ho : first_bulk_out eps = some eout := hout
  have hine : ein.addr ≠ 0 := is_bulk_in_addr_ne_zero ein (List.find?_some hin)
  have houte : eout.addr ≠ 0 := by
    have := List.find?_some hout
    simp only [Bool.and_eq_true, bne_iff_ne] at this
    exact this.2
  have a1 : w2.dev.bulk_in_endpointAddr = ein.addr := by
    rw [a, hi]; simp [probe_start, usb_pd.zero]
  have b1 : w2.dev.bulk_in_size = ein.maxp := by
    rw [b, hi]; simp [probe_start, usb_pd.zero]
  have c1 : w2.dev.bulk_out_endpointAddr = eout.addr := by
    rw [c, ho]; simp [probe_start, usb_pd.zero]
  simp [pd_probe, hz, hw2, a1, b1, c1, hine, houte, hr, World.emit]

/-- Witness for C10 (amended): a bulk-out endpoint with address 0 is passed
over, the next bulk-out endpoint is recorded. -/
theorem pd_probe_selects_first_witness :
    (pd_probe World.init [⟨0x00, 2, 64⟩, ⟨0x02, 2, 512⟩, ⟨0x81, 2, 64⟩, ⟨0x83, 2, 8⟩]
      ⟨true, true, true, 0⟩).world.dev.bulk_out_endpointAddr = 2 :=
  (pd_probe_selects_first World.init [⟨0x00, 2, 64⟩, ⟨0x02, 2, 512⟩, ⟨0x81, 2, 64⟩, ⟨0x83, 2, 8⟩]
    ⟨true, true, true, 0⟩ ⟨0x81, 2, 64⟩ ⟨0x02, 2, 512⟩ rfl rfl rfl rfl (by decide)
    (by decide)).2.2.1

/-! ## Reachable states -/

theorem inv_init : Inv World.init := by
  constructor <;> simp [World.init, usb_pd.zero]

theorem pd_probe_success (w : World) (eps : List usb_endpoint_descriptor) (env : ProbeEnv)
    (h : (pd_probe w eps env).ret = some 0) :
    ∃ w2, probe_scan env (probe_start w) eps = .ok w2 ∧
      (pd_probe w eps env).world =
        { ({ w2 with intfdata := true }.emit .usb_register_dev) with
          registered := true, probed := true } := by
  unfold pd_probe at h ⊢
  cases hz : env.kzalloc_ok
  · simp [hz, ENOMEM] at h
  · cases hs : probe_scan env (probe_start w) eps with
    | error w2 => simp [hz, hs, pd_probe_error, ENOMEM] at h
    | ok w2 =>
      refine ⟨w2, rfl, ?_⟩
      by_cases hc : (!(w2.dev.bulk_in_endpointAddr != 0 && w2.dev.bulk_out_endpointAddr != 0)) = true
      · simp [hz, hs, pd_probe_error, ENOMEM, hc] at h
      · by_cases hr : env.usb_register_dev_ret = 0
        · simp [hz, hs, hc, hr]
        · simp [hz, hs, pd_probe_error, hc, hr] at h

theorem inv_pd_open (w : World) (a : Int) (h : Inv w) : Inv (pd_open w a).world := by
  cases hp : w.probed
  · have hw := h.unprobed hp
    subst hw
    simpa [pd_open, World.init] using inv_init
  · obtain ⟨-, h2, h3, h4, h5, h6, h7, h8⟩ := h
    have h2 := h2 hp
    have h3 := h3 hp
    have h4 := h4 hp
    have h5 := h5 hp
    unfold pd_open
    cases hr : w.registered <;> cases hi : w.intfdata <;> by_cases ha : a = 0 <;>
      cases hl : w.dev.interface <;> cases hd : w.deleted <;>
      simp_all [World.emit, kref_get] <;>
      constructor <;> simp_all <;> omega

theorem probed_of_bindings (w : World) (h : Inv w) (hb : 0 < w.bindings) : w.probed = true := by
  cases hp : w.probed
  · have hw := h.unprobed hp
    subst hw
    simp [World.init] at hb
  · rfl

theorem probed_of_registered (w : World) (h : Inv w) (hb : w.registered = true) :
    w.probed = true := by
  cases hp : w.probed
  · have hw := h.unprobed hp
    subst hw
    simp [World.init] at hb
  · rfl

theorem probed_of_in_flight (w : World) (h : Inv w) (i : Nat) (hb : i < w.in_flight.length) :
    w.probed = true := by
  cases hp : w.probed
  · have hw := h.unprobed hp
    subst hw
    simp [World.init] at hb
  · rfl

theorem inv_pd_release (w : World) (h : Inv w) (hb : 0 < w.bindings) :
    Inv (pd_release w true).world := by
  have hp := probed_of_bindings w h hb
  obtain ⟨-, h2, h3, h4, h5, h6, h7, h8⟩ := h
  have h2 := h2 hp
  have h3 := h3 hp
  have h4 := h4 hp
  have h5 := h5 hp
  unfold pd_release
  cases hl : w.dev.interface <;> cases hd : w.deleted <;>
    by_cases hk : w.dev.kref - 1 = 0 <;>
    simp_all [World.emit, kref_put, mutex_lock, mutex_unlock, pd_delete] <;>
    constructor <;> simp_all <;> omega

theorem inv_pd_disconnect (w : World) (h : Inv w) (hb : w.registered = true) :
    Inv (pd_disconnect w) := by
  have hp := probed_of_registered w h hb
  obtain ⟨-, h2, h3, h4, h5, h6, h7, h8⟩ := h
  have h2 := h2 hp
  have h3 := h3 hp
  have h4 := h4 hp
  have h5 := h5 hp
  unfold pd_disconnect
  cases hl : w.dev.interface <;> cases hd : w.deleted <;>
    by_cases hk : w.dev.kref - 1 = 0 <;>
    simp_all [World.emit, kref_put, mutex_lock, mutex_unlock, pd_delete] <;>
    constructor <;> simp_all <;> omega

theorem inv_pd_read (w : World) (count : Nat) (env : ReadEnv) (h : Inv w)
    (hb : 0 < w.bindings) : Inv (pd_read w count env).world := by
  have hp := probed_of_bindings w h hb
  obtain ⟨-, h2, h3, h4, h5, h6, h7, h8⟩ := h
  have h2 := h2 hp
  have h3 := h3 hp
  have h4 := h4 hp
  have h5 := h5 hp
  unfold pd_read
  cases hl : w.dev.interface <;> by_cases hr : env.usb_bulk_msg_ret = 0 <;>
    cases hc : env.copy_to_user_ok <;>
    simp_all [World.emit, mutex_lock, mutex_unlock] <;>
    constructor <;> simp_all

theorem pd_write_frame (PAGE_SIZE : Nat) (w : World) (count : Nat) (env : WriteEnv) :
    (pd_write PAGE_SIZE w count env).world.write_frame = w.write_frame := by
  by_cases hc : count = 0
  · simp [pd_write, hc]
  by_cases hs : 0 < w.dev.limit_sem
  · unfold pd_write
    simp only [hc, if_false, down_interruptible, hs, if_true]
    cases hl : w.dev.interface
    · simp [mutex_lock, World.emit, pd_write_error, mutex_unlock, up, World.write_frame, hl]
    cases hu : env.usb_alloc_urb_ok
    · simp [mutex_lock, World.emit, pd_write_error, mutex_unlock, up, World.write_frame, hl,
        usb_alloc_urb]
    cases hbuf : env.usb_alloc_coherent_ok
    · simp [mutex_lock, World.emit, pd_write_error, mutex_unlock, up, World.write_frame, hl,
        usb_alloc_urb, usb_alloc_coherent, usb_free_coherent, usb_free_urb]
    cases hcp : env.copy_from_user_ok
    · simp [mutex_lock, World.emit, pd_write_error, mutex_unlock, up, World.write_frame, hl,
        usb_alloc_urb, usb_alloc_coherent, usb_free_coherent, usb_free_urb]
    by_cases hsub : env.usb_submit_urb_ret = 0
    · simp [mutex_lock, World.emit, mutex_unlock, World.write_frame, hl,
        usb_alloc_urb, usb_alloc_coherent, usb_free_urb, hsub]
    · simp [mutex_lock, World.emit, pd_write_error, mutex_unlock, up, World.write_frame, hl,
        usb_alloc_urb, usb_alloc_coherent, usb_free_coherent, usb_free_urb, hsub]
  · cases hsig : env.signal_pending <;> simp [pd_write, hc, down_interruptible, hs, hsig]

theorem inv_pd_write (PAGE_SIZE : Nat) (w : World) (count : Nat) (env : WriteEnv) (h : Inv w)
    (hb : 0 < w.bindings) : Inv (pd_write PAGE_SIZE w count env).world := by
  have hp := probed_of_bindings w h hb
  have h0 := h
  have hfr := pd_write_frame PAGE_SIZE w count env
  simp only [World.write_frame, Prod.mk.injEq] at hfr
  obtain ⟨f1, f2, f3, -, -, f6, f7, f8, f9, f10⟩ := hfr
  obtain ⟨-, h2, h3, h4, h5, h6, h7, h8⟩ := h
  have h2 := h2 hp
  have h3 := h3 hp
  have h4 := h4 hp
  have h5 := h5 hp
  by_cases hc : count = 0
  · simpa [pd_write, hc] using h0
  by_cases hs : 0 < w.dev.limit_sem
  · by_cases hok : w.dev.interface = true ∧ env.usb_alloc_urb_ok = true ∧
        env.usb_alloc_coherent_ok = true ∧ env.copy_from_user_ok = true ∧
        env.usb_submit_urb_ret = 0
    · obtain ⟨a1, a2, a3, a4, a5⟩ := hok
      rw [pd_write_success PAGE_SIZE w count env (by omega) hs a1 a2 a3 a4 a5]
      constructor <;> simp_all
      all_goals omega
    · have hfail : w.dev.interface = false ∨ env.usb_alloc_urb_ok = false ∨
          env.usb_alloc_coherent_ok = false ∨ env.copy_from_user_ok = false ∨
          env.usb_submit_urb_ret ≠ 0 := by
        cases hl : w.dev.interface <;> cases hu : env.usb_alloc_urb_ok <;>
          cases hbuf : env.usb_alloc_coherent_ok <;> cases hcp : env.copy_from_user_ok <;>
          simp_all
      obtain ⟨g1, g2, g3, -, g5, -⟩ :=
        pd_write_error_path PAGE_SIZE w count env (by omega) hs hfail
      constructor
      · intro hh; rw [f9, hp] at hh; cases hh
      · intro _; rw [f1, f2, f10]; exact h2
      · intro _; rw [f6, f1]; exact h3
      · intro _; rw [f8, f7, f2]; exact h4
      · intro _; rw [g1, g5]; exact h5
      · exact g2
      · rw [f3]; exact h7
      · rw [g3, g5]; exact h8
  · cases hsig : env.signal_pending <;>
      simpa [pd_write, hc, down_interruptible, hs, hsig] using h0

theorem inv_pd_write_bulk_callback (w : World) (i : Nat) (status : Int) (h : Inv w)
    (hi : i < w.in_flight.length) : Inv (pd_write_bulk_callback w i status) := by
  have hp := probed_of_in_flight w h i hi
  obtain ⟨-, h2, h3, h4, h5, h6, h7, h8⟩ := h
  have h2 := h2 hp
  have h3 := h3 hp
  have h4 := h4 hp
  have h5 := h5 hp
  have hg : w.in_flight.get? i = some (w.in_flight.get ⟨i, hi⟩) := List.get?_eq_get hi
  have hlen : (w.in_flight.eraseIdx i).length = w.in_flight.length - 1 :=
    List.length_eraseIdx_of_lt hi
  unfold pd_write_bulk_callback
  rw [hg]
  constructor <;> simp_all [usb_free_coherent, up, World.emit]
  all_goals omega

theorem inv_pd_probe (w : World) (eps : List usb_endpoint_descriptor) (env : ProbeEnv)
    (h : Inv w) (hp : w.probed = false) (hr : (pd_probe w eps env).ret = some 0) :
    Inv (pd_probe w eps env).world := by
  have hw := h.unprobed hp
  subst hw
  obtain ⟨w2, hs, hres⟩ := pd_probe_success World.init eps env hr
  have hf := probe_scan_frame env eps (probe_start World.init)
  rw [hs] at hf
  simp only [scan_world, World.scan_frame, Prod.mk.injEq] at hf
  obtain ⟨⟨f1, f2, f3, f4, f5, f6, f7, f8, f9, f10, f11, f12, -⟩, fsz⟩ := hf
  have fsz := fsz (by simp [probe_start, usb_pd.zero, World.init])
  rw [hres]
  simp only [probe_start, World.init, usb_pd.zero] at f1 f2 f3 f4 f5 f6 f7 f8 f9 f10 f11 f12
  constructor <;> simp_all [World.emit, WRITES_IN_FLIGHT]

/-- Every call into the driver preserves the invariant. -/
theorem inv_step (PAGE_SIZE : Nat) (w w1 : World) (s : Step) (h : Inv w)
    (hs : step PAGE_SIZE w s = some w1) : Inv w1 := by
  cases s with
  | attach eps env =>
    simp only [step] at hs
    split at hs
    · rename_i hc
      simp only [Bool.and_eq_true, Bool.not_eq_true', beq_iff_eq] at hc
      cases hs
      exact inv_pd_probe w eps env h hc.1 hc.2
    · cases hs
  | fopen a =>
    simp only [step] at hs
    cases hs
    exact inv_pd_open w a h
  | fclose =>
    simp only [step] at hs
    split at hs
    · rename_i hc; cases hs; exact inv_pd_release w h hc
    · cases hs
  | detach =>
    simp only [step] at hs
    split at hs
    · rename_i hc; cases hs; exact inv_pd_disconnect w h hc
    · cases hs
  | read count env =>
    simp only [step] at hs
    split at hs
    · rename_i hc; cases hs; exact inv_pd_read w count env h hc
    · cases hs
  | write count env =>
    simp only [step] at hs
    split at hs
    · rename_i hc; cases hs; exact inv_pd_write PAGE_SIZE w count env h hc
    · cases hs
  | complete i status =>
    simp only [step] at hs
    split at hs
    · rename_i hc; cases hs; exact inv_pd_write_bulk_callback w i status h hc
    · cases hs

/-- The invariant holds after every sequence of calls. -/
theorem inv_run (PAGE_SIZE : Nat) (steps : List Step) :
    ∀ w w1 : World, Inv w → run PAGE_SIZE w steps = some w1 → Inv w1 := by
  induction steps with
  | nil => intro w w1 h hr; simp only [run] at hr; cases hr; exact h
  | cons s rest ih =>
    intro w w1 h hr
    simp only [run] at hr
    cases hs : step PAGE_SIZE w s with
    | none => rw [hs] at hr; cases hr
    | some w2 =>
      rw [hs] at hr
      exact ih w2 w1 (inv_step PAGE_SIZE w w2 s h hs) hr

/-! ## Session lifetime -/

/-- C1: after every sequence of attach (a `pd_probe` that returns 0), open,
close and detach calls (and reads, writes and write completions) in which each
close has a matching successful open and detach happens at most once, the
reference count is not negative, it is the hold of the attachment plus the
number of open bindings, and `pd_delete` has run if and only if detach has
occurred and every successful open has been closed. -/
theorem refcount_lifecycle (PAGE_SIZE : Nat) (steps : List Step) (w : World)
    (h : run PAGE_SIZE World.init steps = some w) :
    0 ≤ w.dev.kref ∧
    (w.probed = true → w.dev.kref = (if w.detached = true then 0 else 1) + (w.bindings : Int)) ∧
    (w.deleted = true ↔ (w.detached = true ∧ w.bindings = 0)) := by
  have hinv := inv_run PAGE_SIZE steps World.init w inv_init h
  cases hp : w.probed
  · have hw := hinv.unprobed hp
    subst hw
    simp [World.init, usb_pd.zero, World.detached]
  · have h2 := hinv.kref_eq hp
    have h3 := hinv.deleted_iff hp
    cases hl : w.dev.interface <;> simp_all [World.detached]
    all_goals omega

/-- Witness for C1: attach, two opens, two closes, detach; `pd_delete` has
run at the end. -/
theorem refcount_lifecycle_witness :
    ((run 4096 World.init
        [.attach [⟨0x81, 2, 64⟩, ⟨0x02, 2, 64⟩] ⟨true, true, true, 0⟩, .fopen 0, .fopen 0,
          .fclose, .detach, .fclose]).getD World.init).deleted = true :=
  (refcount_lifecycle 4096
    [.attach [⟨0x81, 2, 64⟩, ⟨0x02, 2, 64⟩] ⟨true, true, true, 0⟩, .fopen 0, .fopen 0,
      .fclose, .detach, .fclose] _ rfl).2.2.mpr ⟨rfl, rfl⟩

/-- C2, counterexample: attach, open, one write, close, detach.  `pd_delete`
has run although the submitted transfer has not completed. -/
theorem deleted_with_outstanding_transfer :
    (run 4096 World.init
      [.attach [⟨0x81, 2, 64⟩, ⟨0x02, 2, 64⟩] ⟨true, true, true, 0⟩, .fopen 0,
        .write 100 ⟨false, true, true, true, 0⟩, .fclose, .detach]).map
      (fun w => (w.deleted, w.in_flight.length, w.dev.kref)) = some (true, 1, 0) := by
  rfl

/-- C2 (amended): in every reachable state with an outstanding transfer, the
session is not destroyed as long as a binding is open or the device has not
been detached; the reference count has no share for outstanding transfers, so
the state is destroyed once the device is detached and the last binding is
closed. -/
theorem outstanding_transfer_lifetime (PAGE_SIZE : Nat) (steps : List Step) (w : World)
    (h : run PAGE_SIZE World.init steps = some w) (hout : w.in_flight ≠ []) :
    ((0 < w.bindings ∨ w.detached = false) → w.deleted = false) ∧
    (w.bindings = 0 → w.detached = true → w.deleted = true) ∧
    w.dev.kref = (if w.detached = true then 0 else 1) + (w.bindings : Int) := by
  have hinv := inv_run PAGE_SIZE steps World.init w inv_init h
  have hp : w.probed = true := by
    cases hp : w.probed
    · have hw := hinv.unprobed hp
      subst hw
      simp [World.init] at hout
    · rfl
  have h2 := hinv.kref_eq hp
  have h3 := hinv.deleted_iff hp
  cases hl : w.dev.interface <;> cases hd : w.deleted <;> simp_all [World.detached]
  all_goals omega

/-- Witness for C2 (amended): after attach, open and one write the transfer is
outstanding and the session is alive. -/
theorem outstanding_transfer_lifetime_witness :
    ((run 4096 World.init
        [.attach [⟨0x81, 2, 64⟩, ⟨0x02, 2, 64⟩] ⟨true, true, true, 0⟩, .fopen 0,
          .write 100 ⟨false, true, true, true, 0⟩]).getD World.init).deleted = false :=
  (outstanding_transfer_lifetime 4096
    [.attach [⟨0x81, 2, 64⟩, ⟨0x02, 2, 64⟩] ⟨true, true, true, 0⟩, .fopen 0,
      .write 100 ⟨false, true, true, true, 0⟩] _ rfl (by decide)).1 (Or.inl (by decide))

/-! ## The write limiter -/

/-- C3: in every state reachable after attach in which the session has not
been destroyed, free permits plus outstanding transfers equal
`WRITES_IN_FLIGHT = 8`, so at most 8 transfers are outstanding; with 8
outstanding a `pd_write` of `count > 0` bytes submits nothing (the caller
sleeps, or the call is interrupted with `-ERESTARTSYS`) and leaves the state
unchanged, and each completion callback releases one permit. -/
theorem permits_plus_outstanding (PAGE_SIZE : Nat) (steps : List Step) (w : World)
    (h : run PAGE_SIZE World.init steps = some w) (hp : w.probed = true)
    (_hd : w.deleted = false) :
    w.dev.limit_sem + w.in_flight.length = 8 ∧
    w.in_flight.length ≤ 8 ∧
    (w.in_flight.length = 8 → ∀ (count : Nat) (env : WriteEnv), 0 < count →
      (pd_write PAGE_SIZE w count env).world = w ∧
      (if env.signal_pending = true then
        (pd_write PAGE_SIZE w count env).ret = some (-ERESTARTSYS)
       else (pd_write PAGE_SIZE w count env).ret = none)) ∧
    (∀ (i : Nat) (status : Int), i < w.in_flight.length →
      (pd_write_bulk_callback w i status).dev.limit_sem = w.dev.limit_sem + 1 ∧
      (pd_write_bulk_callback w i status).in_flight.length + 1 = w.in_flight.length) := by
  have hinv := inv_run PAGE_SIZE steps World.init w inv_init h
  have h5 : w.dev.limit_sem + w.in_flight.length = 8 := hinv.permits hp
  refine ⟨h5, by omega, ?_, ?_⟩
  · intro hfull count env hcount
    have hc : count ≠ 0 := by omega
    have hs : w.dev.limit_sem = 0 := by omega
    cases hsig : env.signal_pending <;> simp [pd_write, hc, down_interruptible, hs, hsig]
  · intro i status hi
    have hg : w.in_flight.get? i = some (w.in_flight.get ⟨i, hi⟩) := List.get?_eq_get hi
    have hlen : (w.in_flight.eraseIdx i).length = w.in_flight.length - 1 :=
      List.length_eraseIdx_of_lt hi
    unfold pd_write_bulk_callback
    rw [hg]
    simp [usb_free_coherent, up, World.emit, hlen]
    omega

/-- Witness for C3: after attach, open and eight writes, a ninth write with no
signal pending does not return: the caller sleeps in `down_interruptible`. -/
theorem permits_plus_outstanding_witness :
    (pd_write 4096
      ((run 4096 World.init
        [.attach [⟨0x81, 2, 64⟩, ⟨0x02, 2, 64⟩] ⟨true, true, true, 0⟩, .fopen 0,
          .write 100 ⟨false, true, true, true, 0⟩, .write 100 ⟨false, true, true, true, 0⟩,
          .write 100 ⟨false, true, true, true, 0⟩, .write 100 ⟨false, true, true, true, 0⟩,
          .write 100 ⟨false, true, true, true, 0⟩, .write 100 ⟨false, true, true, true, 0⟩,
          .write 100 ⟨false, true, true, true, 0⟩,
          .write 100 ⟨false, true, true, true, 0⟩]).getD World.init)
      100 ⟨false, true, true, true, 0⟩).ret = none :=
  ((permits_plus_outstanding 4096
    [.attach [⟨0x81, 2, 64⟩, ⟨0x02, 2, 64⟩] ⟨true, true, true, 0⟩, .fopen 0,
      .write 100 ⟨false, true, true, true, 0⟩, .write 100 ⟨false, true, true, true, 0⟩,
      .write 100 ⟨false, true, true, true, 0⟩, .write 100 ⟨false, true, true, true, 0⟩,
      .write 100 ⟨false, true, true, true, 0⟩, .write 100 ⟨false, true, true, true, 0⟩,
      .write 100 ⟨false, true, true, true, 0⟩,
      .write 100 ⟨false, true, true, true, 0⟩] _ rfl rfl rfl).2.2.1 rfl 100
    ⟨false, true, true, true, 0⟩ (by decide)).2

/-! ## I/O after detach -/

theorem step_after_detach (PAGE_SIZE : Nat) (w w1 : World) (s : Step)
    (hp : w.probed = true) (hl : w.dev.interface = false)
    (hs : step PAGE_SIZE w s = some w1) : w1.probed = true ∧ w1.dev.interface = false := by
  cases s with
  | attach eps env => simp [step, hp] at hs
  | fopen a =>
    simp only [step] at hs
    cases hs
    unfold pd_open
    cases hr : w.registered <;> cases hi : w.intfdata <;> by_cases ha : a = 0 <;>
      simp [hr, hi, ha, hp, hl, World.emit, kref_get]
  | fclose =>
    simp only [step] at hs
    split at hs
    · cases hs
      unfold pd_release
      by_cases hk : w.dev.kref - 1 = 0 <;>
        simp [hk, hp, hl, World.emit, kref_put, mutex_lock, mutex_unlock, pd_delete]
    · cases hs
  | detach =>
    simp only [step] at hs
    split at hs
    · cases hs
      unfold pd_disconnect
      by_cases hk : w.dev.kref - 1 = 0 <;>
        simp [hk, hp, World.emit, kref_put, mutex_lock, mutex_unlock, pd_delete]
    · cases hs
  | read count env =>
    simp only [step] at hs
    split at hs
    · cases hs
      simp [pd_read, hp, hl, World.emit, mutex_lock, mutex_unlock]
    · cases hs
  | write count env =>
    simp only [step] at hs
    split at hs
    · cases hs
      have hfr := pd_write_frame PAGE_SIZE w count env
      simp only [World.write_frame, Prod.mk.injEq] at hfr
      obtain ⟨-, f2, -, -, -, -, -, -, f9, -⟩ := hfr
      rw [f2, f9]; exact ⟨hp, hl⟩
    · cases hs
  | complete i status =>
    simp only [step] at hs
    split at hs
    · rename_i hi
      cases hs
      have hg : w.in_flight.get? i = some (w.in_flight.get ⟨i, hi⟩) := List.get?_eq_get hi
      unfold pd_write_bulk_callback
      rw [hg]
      simp [usb_free_coherent, up, World.emit, hp, hl]
    · cases hs

theorem run_after_detach (PAGE_SIZE : Nat) (steps : List Step) :
    ∀ w w1 : World, w.probed = true → w.dev.interface = false →
      run PAGE_SIZE w steps = some w1 → w1.probed = true ∧ w1.dev.interface = false := by
  induction steps with
  | nil => intro w w1 hp hl hr; simp only [run] at hr; cases hr; exact ⟨hp, hl⟩
  | cons s rest ih =>
    intro w w1 hp hl hr
    simp only [run] at hr
    cases hs : step PAGE_SIZE w s with
    | none => rw [hs] at hr; cases hr
    | some w2 =>
      rw [hs] at hr
      have h2 := step_after_detach PAGE_SIZE w w2 s hp hl hs
      exact ih w2 w1 h2.1 h2.2 hr

theorem pd_disconnect_clears (w : World) :
    (pd_disconnect w).probed = w.probed ∧ (pd_disconnect w).dev.interface = false := by
  unfold pd_disconnect
  by_cases hk : w.dev.kref - 1 = 0 <;>
    simp [hk, World.emit, kref_put, mutex_lock, mutex_unlock, pd_delete]

/-- C6, counterexample: after attach, open and `pd_disconnect`, a `pd_write`
of length 0 returns 0, not `-ENODEV`. -/
theorem pd_write_zero_after_disconnect :
    (pd_write 4096
      (pd_disconnect ((run 4096 World.init
        [.attach [⟨0x81, 2, 64⟩, ⟨0x02, 2, 64⟩] ⟨true, true, true, 0⟩, .fopen 0]).getD World.init))
      0 ⟨false, true, true, true, 0⟩).ret = some 0 ∧
    (pd_write 4096
      (pd_disconnect ((run 4096 World.init
        [.attach [⟨0x81, 2, 64⟩, ⟨0x02, 2, 64⟩] ⟨true, true, true, 0⟩, .fopen 0]).getD World.init))
      0 ⟨false, true, true, true, 0⟩).ret ≠ some (-ENODEV) := by
  decide

/-- C6 (amended): once `pd_disconnect` has run on an attached session, then
after any further calls, `pd_read` with any length returns `-ENODEV`, and
`pd_write` with any length `count > 0` returns `-ENODEV` as soon as it has its
permit (with no free permit and no signal pending the caller sleeps); neither
call makes a transport call or leaves a transfer outstanding. -/
theorem io_after_disconnect (PAGE_SIZE : Nat) (w w1 : World) (steps : List Step)
    (rcount wcount : Nat) (renv : ReadEnv) (wenv : WriteEnv)
    (hp : w.probed = true) (hrun : run PAGE_SIZE (pd_disconnect w) steps = some w1)
    (hcount : 0 < wcount) :
    (pd_read w1 rcount renv).ret = some (-ENODEV) ∧
    transport_calls (pd_read w1 rcount renv).world.log = transport_calls w1.log ∧
    (0 < w1.dev.limit_sem → (pd_write PAGE_SIZE w1 wcount wenv).ret = some (-ENODEV)) ∧
    (w1.dev.limit_sem = 0 → wenv.signal_pending = false →
      (pd_write PAGE_SIZE w1 wcount wenv).ret = none) ∧
    transport_calls (pd_write PAGE_SIZE w1 wcount wenv).world.log = transport_calls w1.log ∧
    (pd_write PAGE_SIZE w1 wcount wenv).world.in_flight = w1.in_flight := by
  have hd := pd_disconnect_clears w
  obtain ⟨-, hl⟩ := run_after_detach PAGE_SIZE steps (pd_disconnect w) w1 (hd.1.trans hp) hd.2 hrun
  have hc : wcount ≠ 0 := by omega
  refine ⟨?_, ?_, ?_, ?_, ?_, ?_⟩
  · simp [pd_read, mutex_lock, World.emit, hl, mutex_unlock]
  · simp [pd_read, mutex_lock, World.emit, hl, mutex_unlock, transport_calls,
      List.filter_append, List.filter, Event.isTransport]
  · intro hs
    exact ((pd_write_error_path PAGE_SIZE w1 wcount wenv hcount hs (Or.inl hl)).2.2.2.2.2.2.1
      hl).1
  · intro hs hsig
    simp [pd_write, hc, down_interruptible, hs, hsig]
  · by_cases hs : 0 < w1.dev.limit_sem
    · exact ((pd_write_error_path PAGE_SIZE w1 wcount wenv hcount hs
        (Or.inl hl)).2.2.2.2.2.2.1 hl).2
    · cases hsig : wenv.signal_pending <;> simp [pd_write, hc, down_interruptible, hs, hsig]
  · by_cases hs : 0 < w1.dev.limit_sem
    · exact (pd_write_error_path PAGE_SIZE w1 wcount wenv hcount hs (Or.inl hl)).2.2.2.2.1
    · cases hsig : wenv.signal_pending <;> simp [pd_write, hc, down_interruptible, hs, hsig]

/-- Witness for C6 (amended): attach, open, detach, then a read of 64 bytes
fails with `-ENODEV`. -/
theorem io_after_disconnect_witness :
    (pd_read
      (pd_disconnect ((run 4096 World.init
        [.attach [⟨0x81, 2, 64⟩, ⟨0x02, 2, 64⟩] ⟨true, true, true, 0⟩, .fopen 0]).getD World.init))
      64 ⟨0, 64, true⟩).ret = some (-ENODEV) :=
  (io_after_disconnect 4096
    ((run 4096 World.init
      [.attach [⟨0x81, 2, 64⟩, ⟨0x02, 2, 64⟩] ⟨true, true, true, 0⟩, .fopen 0]).getD World.init)
    _ [] 64 100 ⟨0, 64, true⟩ ⟨false, true, true, true, 0⟩ rfl rfl (by decide)).1

/-! ## Read path -/

theorem to_ulong_small (a : Int) (h0 : 0 ≤ a) (h1 : a < 2 ^ 64) : to_ulong a = a.toNat := by
  unfold to_ulong
  rw [Int.emod_eq_of_lt h0 h1]

/-- C7: on every reachable live session and for every `count`, `pd_read`
asks the transport (one `usb_bulk_msg` call) for exactly
`min(bulk_in_size, count)` bytes.  If the transport returns 0 or a negative
errno and, when it returns 0, reports a received count between 0 and the
requested amount, then every `pd_read` that returns a value `r ≥ 0` returns the
count the transport reported, `r ≤ min(bulk_in_size, count)`, and exactly `r`
bytes are copied to the caller; a received count of 0 is returned as 0. -/
theorem pd_read_count (PAGE_SIZE : Nat) (steps : List Step) (w : World) (count : Nat)
    (env : ReadEnv) (h : run PAGE_SIZE World.init steps = some w)
    (hlive : w.dev.interface = true) (hstatus : env.usb_bulk_msg_ret ≤ 0)
    (hlen : env.usb_bulk_msg_ret = 0 →
      0 ≤ env.actual_length ∧ env.actual_length ≤ ((min w.dev.bulk_in_size count : Nat) : Int)) :
    (pd_read w count env).world.log.filter Event.isTransport =
      w.log.filter Event.isTransport ++
        [.usb_bulk_msg w.dev.bulk_in_endpointAddr ((min w.dev.bulk_in_size count : Nat) : Int)] ∧
    (∀ r : Int, (pd_read w count env).ret = some r → 0 ≤ r →
      r = env.actual_length ∧ r ≤ ((min w.dev.bulk_in_size count : Nat) : Int) ∧
      (pd_read w count env).world.log = w.log ++
        [.mutex_lock,
         .usb_bulk_msg w.dev.bulk_in_endpointAddr ((min w.dev.bulk_in_size count : Nat) : Int),
         .copy_to_user r.toNat, .mutex_unlock]) ∧
    (env.usb_bulk_msg_ret = 0 → env.copy_to_user_ok = true →
      (pd_read w count env).ret = some env.actual_length) := by
  have hinv := inv_run PAGE_SIZE steps World.init w inv_init h
  have hsz := hinv.size
  have hmin : min w.dev.bulk_in_size count < 2 ^ 31 := by
    have := Nat.min_le_left w.dev.bulk_in_size count
    omega
  have hreq := to_int_small _ hmin
  rw [Nat.cast_min] at hreq
  by_cases hr : env.usb_bulk_msg_ret = 0
  · obtain ⟨l0, l1⟩ := hlen hr
    have hul : to_ulong env.actual_length = env.actual_length.toNat :=
      to_ulong_small _ l0 (by omega)
    rw [Nat.cast_min, le_min_iff] at l1
    cases hc : env.copy_to_user_ok
    · simp [pd_read, mutex_lock, World.emit, hlive, mutex_unlock, hr, hc, hreq, hul,
        List.filter_append, List.filter, Event.isTransport, EFAULT]
    · simp [pd_read, mutex_lock, World.emit, hlive, mutex_unlock, hr, hc, hreq, hul,
        List.filter_append, List.filter, Event.isTransport]
      intro _
      exact l1
  · have hneg : env.usb_bulk_msg_ret < 0 := by omega
    simp [pd_read, mutex_lock, World.emit, hlive, mutex_unlock, hr, hreq,
      List.filter_append, List.filter, Event.isTransport]
    exact hneg

/-- Witness for C7: a live session with a 64-byte receive buffer, a read of
1000 bytes for which the transport delivers 10 bytes. -/
theorem pd_read_count_witness :
    (pd_read
      ((run 4096 World.init
        [.attach [⟨0x81, 2, 64⟩, ⟨0x02, 2, 64⟩] ⟨true, true, true, 0⟩, .fopen 0]).getD World.init)
      1000 ⟨0, 10, true⟩).ret = some 10 :=
  (pd_read_count 4096
    [.attach [⟨0x81, 2, 64⟩, ⟨0x02, 2, 64⟩] ⟨true, true, true, 0⟩, .fopen 0] _ 1000
    ⟨0, 10, true⟩ rfl rfl (by decide) (fun _ => by decide)).2.2 rfl rfl

end UsbPd
